import Mathlib

/-!
Verification development for the heFFTe `fft3d_r2c` class
(`src/include/heffte_fft3d_r2c.h`).

The header declares the public interface of the real-to-complex 3D FFT plan:
construction from boxes, the size/box/scale queries, the pointer- and
container-based `forward`/`backward` overloads, and the private
`standard_transform` entry points.  The geometry helpers (`box3d`), the logic
planner (`plan_operations`) and the bodies of `standard_transform` live in
other files of the repository; where a claim depends on them they are modelled
from the specification, and each such definition says so in its doc comment.
-/

namespace heffte

/-! ## Box algebra -/

/-- Modelled from the spec: `box3d` (declared in the geometry header, which is
not part of the sources here) is a closed rectangular region of the integer
lattice given by an inclusive lower corner and an inclusive upper corner. -/
structure box3d where
  low : Int × Int × Int
  high : Int × Int × Int
deriving DecidableEq, Inhabited

/-- Lower corner along axis `i`. -/
def box3d.lo (b : box3d) (i : Fin 3) : Int :=
  if i.val = 0 then b.low.1 else if i.val = 1 then b.low.2.1 else b.low.2.2

/-- Upper corner along axis `i`. -/
def box3d.hi (b : box3d) (i : Fin 3) : Int :=
  if i.val = 0 then b.high.1 else if i.val = 1 then b.high.2.1 else b.high.2.2

/-- Number of lattice indices in the closed range `lo .. hi` (zero when the
range is empty). -/
def rangeLen (lo hi : Int) : Nat := (hi + 1 - lo).toNat

/-- Extent (number of indices) of a box along axis `i`. -/
def box3d.extent (b : box3d) (i : Fin 3) : Nat := rangeLen (b.lo i) (b.hi i)

/-- Modelled from the spec: `count = ∏ (hiᵢ − loᵢ + 1)` when the box is
non-empty and `0` otherwise. -/
def box3d.count (b : box3d) : Nat := b.extent 0 * b.extent 1 * b.extent 2

/-- Lattice-point membership test. -/
def box3d.contains (b : box3d) (p : Int × Int × Int) : Bool :=
  decide (b.low.1 ≤ p.1) && decide (p.1 ≤ b.high.1) &&
  decide (b.low.2.1 ≤ p.2.1) && decide (p.2.1 ≤ b.high.2.1) &&
  decide (b.low.2.2 ≤ p.2.2) && decide (p.2.2 ≤ b.high.2.2)

/-- All lattice indices of the closed range `lo .. hi`. -/
def axisPoints (lo hi : Int) : List Int :=
  (List.range (rangeLen lo hi)).map (fun n => lo + n)

/-- All lattice points of a box. -/
def box3d.points (b : box3d) : List (Int × Int × Int) :=
  (axisPoints b.low.1 b.high.1).flatMap (fun x =>
    (axisPoints b.low.2.1 b.high.2.1).flatMap (fun y =>
      (axisPoints b.low.2.2 b.high.2.2).map (fun z => (x, y, z))))

/-- The union of the listed boxes covers exactly the lattice points of
`world`: every point of `world` lies in some box and every box lies inside
`world`. -/
def unionEqB (boxes : List box3d) (world : box3d) : Bool :=
  world.points.all (fun p => boxes.any (fun b => b.contains p)) &&
  boxes.all (fun b => b.points.all (fun p => world.contains p))

/-- No lattice point belongs to two of the listed boxes. -/
def pairwiseDisjointB : List box3d → Bool
  | [] => true
  | b :: rest =>
      rest.all (fun c => b.points.all (fun p => !(c.contains p))) &&
      pairwiseDisjointB rest

/-- Modelled from the spec: the per-rank boxes form a partition of `world`
(union equals `world`, interiors pairwise disjoint). -/
def partitionOkB (boxes : List box3d) (world : box3d) : Bool :=
  unionEqB boxes world && pairwiseDisjointB boxes

/-- Modelled from the spec (and the class doc comment of `fft3d_r2c`): the
global box shortened along the real-to-complex axis `r`; the extent `X` along
axis `r` becomes `⌊X/2⌋ + 1` (C++ integer division) and the other two axes are
unchanged.  An `r` outside `{0,1,2}` leaves the box unchanged. -/
def box3d.r2c (b : box3d) (r : Int) : box3d :=
  { low := b.low,
    high :=
      (if r = 0 then b.low.1 + ((rangeLen b.low.1 b.high.1 / 2 : Nat) : Int) else b.high.1,
       if r = 1 then b.low.2.1 + ((rangeLen b.low.2.1 b.high.2.1 / 2 : Nat) : Int) else b.high.2.1,
       if r = 2 then b.low.2.2 + ((rangeLen b.low.2.2 b.high.2.2 / 2 : Nat) : Int) else b.high.2.2) }

/-! ## Errors, logic planner and plan construction -/

/-- The error taxonomy relevant to plan construction and the container calls:
`InvalidPartition` and `InvalidR2CAxis` come from the planner, and
`InvalidArgument` models the `std::invalid_argument` thrown by the
container-based `forward`. -/
inductive heffte_error where
  | InvalidPartition
  | InvalidR2CAxis
  | InvalidArgument
deriving DecidableEq

/-- The scaling choices of `heffte::scale`. -/
inductive scale where
  | none
  | full
  | symmetric
deriving DecidableEq

/-- Modelled from the spec: the part of the logic plan (`plan_operations`
lives in the planner sources, not in the headers here) that the claims
observe — the global box, the chosen r2c axis and the scale factor
`1/∏Nᵢ` over the full (unshortened) axis lengths. -/
structure logic_plan3d where
  world : box3d
  r2c_direction : Int
  scale_fac : ℚ
deriving DecidableEq

/-- Modelled from the spec: `plan_operations` checks the r2c axis, checks
that the input boxes partition the global input box and that the output boxes
partition the global box shortened along the r2c axis, and produces the logic
plan with scale factor `1/(N₀·N₁·N₂)` over full axis lengths.  Failures are
`InvalidR2CAxis` (axis outside `{0,1,2}`) and `InvalidPartition`. -/
def plan_operations (world : box3d) (inboxes outboxes : List box3d) (r : Int) :
    Except heffte_error logic_plan3d :=
  if r = 0 ∨ r = 1 ∨ r = 2 then
    if partitionOkB inboxes world && partitionOkB outboxes (world.r2c r) then
      Except.ok { world := world, r2c_direction := r, scale_fac := 1 / (world.count : ℚ) }
    else Except.error heffte_error.InvalidPartition
  else Except.error heffte_error.InvalidR2CAxis

/-- The send/receive volumes of one reshape stage (`reshape3d_base` is
declared elsewhere in the repository; the claims only read the two sizes). -/
structure reshape3d_base where
  input_volume : Nat
  output_volume : Nat
deriving DecidableEq

/-- The execution resources built by the private constructor of `fft3d_r2c`
(reshape operators and 1D executor scratch sizes); their construction is not
part of the sources here, so they are taken as given data. -/
structure plan_internals where
  forward_shaper : List (Option reshape3d_base)
  backward_shaper : List (Option reshape3d_base)
  scratch_r2c : Nat
  scratch_c2c_0 : Nat
  scratch_c2c_1 : Nat
deriving DecidableEq

/-- The state of a constructed `fft3d_r2c` plan: the const members
`pinbox`, `poutbox`, `scale_factor` together with the reshape operators and
executor scratch sizes. -/
structure fft3d_r2c where
  pinbox : box3d
  poutbox : box3d
  scale_factor : ℚ
  forward_shaper : List (Option reshape3d_base)
  backward_shaper : List (Option reshape3d_base)
  scratch_r2c : Nat
  scratch_c2c_0 : Nat
  scratch_c2c_1 : Nat
deriving DecidableEq

/-- The public constructor of `fft3d_r2c`: it first invokes the logic planner
(`plan_operations`) on the gathered boxes and the requested r2c axis, and only
on success delegates to the private constructor that records the rank's boxes,
the scale factor and the execution resources.  A planner error therefore
propagates before any plan state is produced. -/
def fft3d_r2c_construct (rank : Nat) (world : box3d) (inboxes outboxes : List box3d)
    (r : Int) (internals : plan_internals) : Except heffte_error fft3d_r2c :=
  (plan_operations world inboxes outboxes r).map (fun plan =>
    { pinbox := inboxes.getD rank default,
      poutbox := outboxes.getD rank default,
      scale_factor := plan.scale_fac,
      forward_shaper := internals.forward_shaper,
      backward_shaper := internals.backward_shaper,
      scratch_r2c := internals.scratch_r2c,
      scratch_c2c_0 := internals.scratch_c2c_0,
      scratch_c2c_1 := internals.scratch_c2c_1 })

/-! ## Queries of a constructed plan -/

/-- `size_inbox()` — the element count of the rank's input box. -/
def size_inbox (p : fft3d_r2c) : Nat := p.pinbox.count

/-- `size_outbox()` — the element count of the rank's output box. -/
def size_outbox (p : fft3d_r2c) : Nat := p.poutbox.count

/-- `get_scale_factor(scaling)` as written in the header: the square root of
the stored factor for symmetric scaling and the stored factor itself
otherwise. -/
noncomputable def get_scale_factor (p : fft3d_r2c) (scaling : scale) : ℝ :=
  if scaling = scale.symmetric then Real.sqrt (p.scale_factor : ℝ) else (p.scale_factor : ℝ)

/-- Modelled from the spec: `get_workspace_size` (declared with `fft3d`, not
in the sources here) is the maximum over the reshape stages of the
communication volume, send plus receive; absent stages are skipped. -/
def get_workspace_size (shapers : List (Option reshape3d_base)) : Nat :=
  shapers.foldr
    (fun s m =>
      match s with
      | some sh => Nat.max (sh.input_volume + sh.output_volume) m
      | Option.none => m) 0

/-- Modelled from the spec: `get_max_size` over the three 1D executors is the
largest executor scratch size. -/
def get_max_size (p : fft3d_r2c) : Nat :=
  Nat.max p.scratch_r2c (Nat.max p.scratch_c2c_0 p.scratch_c2c_1)

/-- `size_workspace()` as written in the header: the larger of the forward and
backward shaper workspaces plus the largest executor scratch. -/
def size_workspace (p : fft3d_r2c) : Nat :=
  Nat.max (get_workspace_size p.forward_shaper) (get_workspace_size p.backward_shaper)
    + get_max_size p

/-- `size_comm_buffers()` as written in the header: the larger of the forward
and backward shaper workspaces. -/
def size_comm_buffers (p : fft3d_r2c) : Nat :=
  Nat.max (get_workspace_size p.forward_shaper) (get_workspace_size p.backward_shaper)

/-! ## Container-based transform overloads

The pointer-based `forward`/`backward` write their results in place into a
buffer supplied by the caller; the numeric values they write come from the
`standard_transform` bodies, which are only declared in the header, so the
written values appear below as a parameter `vals`.  What the header itself
fixes — the size check of the container-based `forward`, the absence of any
check in the container-based `backward`, and the sizes of the freshly
allocated result containers — is transcribed directly. -/

/-- In-place overwrite of a buffer: the written values replace the front of
the buffer and the buffer keeps its length (a C++ vector passed via `.data()`
cannot change size). -/
def overwrite {γ : Type} (dest vals : List γ) : List γ :=
  (vals ++ dest.drop vals.length).take dest.length

/-- The container-based `forward`: it throws `std::invalid_argument` when the
input holds fewer than `size_inbox()` entries, otherwise allocates a result
container of `size_outbox()` value-initialized entries and lets the
pointer-based `forward` overwrite it in place. -/
def forward_container {α β : Type} [Inhabited β] (p : fft3d_r2c)
    (vals : List β) (input : List α) : Except heffte_error (List β) :=
  if input.length < size_inbox p then Except.error heffte_error.InvalidArgument
  else Except.ok (overwrite (List.replicate (size_outbox p) default) vals)

/-- The container-based `backward`: it performs no size check at all; it
allocates a result container of `size_inbox()` value-initialized entries and
lets the pointer-based `backward` overwrite it in place. -/
def backward_container {α β : Type} [Inhabited α] (p : fft3d_r2c)
    (vals : List α) (input : List β) : Except heffte_error (List α) :=
  Except.ok (overwrite (List.replicate (size_inbox p) default) vals)

/-! ## Call-site type checking -/

/-- The element kinds of the compatible-types table: real single, real
double, single-precision complex, double-precision complex. -/
inductive scalar_kind where
  | float_t
  | double_t
  | ccomplex_t
  | zcomplex_t
deriving DecidableEq

/-- `is_ccomplex`: single-precision complex types. -/
def is_ccomplex : scalar_kind → Bool
  | scalar_kind.ccomplex_t => true
  | _ => false

/-- `is_zcomplex`: double-precision complex types. -/
def is_zcomplex : scalar_kind → Bool
  | scalar_kind.zcomplex_t => true
  | _ => false

/-- The `static_assert` of the pointer-based `forward`: the input type is
`float` with a single-precision complex output, or `double` with a
double-precision complex output. -/
def forward_types_ok (input output : scalar_kind) : Bool :=
  (decide (input = scalar_kind.float_t) && is_ccomplex output) ||
  (decide (input = scalar_kind.double_t) && is_zcomplex output)

/-- The `static_assert` of the pointer-based `backward`: the output type is
`float` with a single-precision complex input, or `double` with a
double-precision complex input. -/
def backward_types_ok (input output : scalar_kind) : Bool :=
  (decide (output = scalar_kind.float_t) && is_ccomplex input) ||
  (decide (output = scalar_kind.double_t) && is_zcomplex input)

/-! ## Transform calls against a constructed plan -/

/-- One `forward` or `backward` call as the caller observes it: the call
writes some contents into the caller's output buffer (on a failed call the
contents are undefined, so they are arbitrary here as well). -/
inductive fft_call (γ : Type) where
  | forward_call (written : List γ) (scaling : scale)
  | backward_call (written : List γ) (scaling : scale)

/-- A constructed plan together with the caller-visible output buffer. -/
structure call_state (γ : Type) where
  plan : fft3d_r2c
  user_output : List γ

/-- Effect of one call: `forward` and `backward` are const methods of a class
whose members are const, so the call rewrites the caller's buffer and leaves
every plan member as constructed. -/
def apply_call {γ : Type} (s : call_state γ) (c : fft_call γ) : call_state γ :=
  match c with
  | fft_call.forward_call w _ => { plan := s.plan, user_output := w }
  | fft_call.backward_call w _ => { plan := s.plan, user_output := w }

/-- A sequence of transform calls, applied in order. -/
def run_calls {γ : Type} (s : call_state γ) (cs : List (fft_call γ)) : call_state γ :=
  cs.foldl apply_call s

/-! ## The `standard_transform` entry points -/

/-- A fresh workspace container of `n` value-initialized entries, as allocated
by `buffer_container<std::complex<scalar_type>> workspace(size_workspace())`. -/
def fresh_workspace {γ : Type} [Inhabited γ] (n : Nat) : List γ :=
  List.replicate n default

/-- The three-argument `standard_transform` (forward direction): the caller
supplies the workspace.  Its body is only declared in the header, so the
computation is the parameter `pipeline`. -/
def standard_transform_fwd_w {α γ : Type}
    (pipeline : fft3d_r2c → List α → List γ → scale → List γ)
    (p : fft3d_r2c) (input : List α) (workspace : List γ) (scaling : scale) : List γ :=
  pipeline p input workspace scaling

/-- The two-argument `standard_transform` (forward direction) as written in
the header: allocate a workspace of `size_workspace()` complex entries and
delegate to the three-argument variant. -/
def standard_transform_fwd {α γ : Type} [Inhabited γ]
    (pipeline : fft3d_r2c → List α → List γ → scale → List γ)
    (p : fft3d_r2c) (input : List α) (scaling : scale) : List γ :=
  standard_transform_fwd_w pipeline p input (fresh_workspace (size_workspace p)) scaling

/-- The three-argument `standard_transform` (backward direction): complex
input, real output, caller-supplied complex workspace; the body is the
parameter `pipeline`. -/
def standard_transform_bwd_w {α γ : Type}
    (pipeline : fft3d_r2c → List γ → List γ → scale → List α)
    (p : fft3d_r2c) (input : List γ) (workspace : List γ) (scaling : scale) : List α :=
  pipeline p input workspace scaling

/-- The two-argument `standard_transform` (backward direction) as written in
the header: allocate a workspace of `size_workspace()` complex entries and
delegate to the three-argument variant. -/
def standard_transform_bwd {α γ : Type} [Inhabited γ]
    (pipeline : fft3d_r2c → List γ → List γ → scale → List α)
    (p : fft3d_r2c) (input : List γ) (scaling : scale) : List α :=
  standard_transform_bwd_w pipeline p input (fresh_workspace (size_workspace p)) scaling

/-! ## Concrete instances used by the closed theorems -/

/-- A 2×2×2 global box `{0..1}³`. -/
def exampleWorld : box3d := { low := (0, 0, 0), high := (1, 1, 1) }

/-- Execution resources of the single-rank example plan. -/
def exampleInternals : plan_internals :=
  { forward_shaper := [], backward_shaper := [],
    scratch_r2c := 0, scratch_c2c_0 := 0, scratch_c2c_1 := 0 }

/-- The plan the single-rank construction over `exampleWorld` with r2c axis 0
produces: both boxes are the full 2×2×2 box (an extent of 2 shortens to
`2/2 + 1 = 2`) and the scale factor is `1/8`. -/
def examplePlan : fft3d_r2c :=
  { pinbox := exampleWorld, poutbox := exampleWorld,
    scale_factor := 1 / 8,
    forward_shaper := [], backward_shaper := [],
    scratch_r2c := 0, scratch_c2c_0 := 0, scratch_c2c_1 := 0 }

/-! ## Helper lemmas -/

/-- A successful construction stores the planner's scale factor,
`1/count(world)` over the full (unshortened) global input box. -/
theorem construct_ok_scale_factor (rank : Nat) (world : box3d)
    (inboxes outboxes : List box3d) (r : Int) (internals : plan_internals)
    (p : fft3d_r2c)
    (h : fft3d_r2c_construct rank world inboxes outboxes r internals = Except.ok p) :
    p.scale_factor = 1 / (world.count : ℚ) := by
  unfold fft3d_r2c_construct plan_operations at h
  split at h
  · split at h
    · simp only [Except.map] at h
      cases h
      rfl
    · simp [Except.map] at h
  · simp [Except.map] at h

/-- The cast of the count of a box to the reals is the product of the casts of
its three extents. -/
theorem count_cast_real (b : box3d) :
    ((b.count : ℚ) : ℝ) = (b.extent 0 : ℝ) * (b.extent 1 : ℝ) * (b.extent 2 : ℝ) := by
  unfold box3d.count
  push_cast
  ring

/-! ## Claim C1 -/

/-- Claim C1, counterexample: for the concretely constructed single-rank plan
over the 2×2×2 global box, `get_scale_factor(none)` returns the base factor
`1/8` and not `1`: the header's ternary returns the stored `scale_factor`
for every scaling other than `symmetric`. -/
theorem scale_factor_none_not_one :
    fft3d_r2c_construct 0 exampleWorld [exampleWorld] [exampleWorld] 0 exampleInternals
        = Except.ok examplePlan ∧
    get_scale_factor examplePlan scale.none ≠ 1 := by
  refine ⟨rfl, ?_⟩
  simp [get_scale_factor, examplePlan]

/-- Claim C1, amended: for every constructed plan, the scale-factor query
returns `1/(N₀·N₁·N₂)` over the full (unshortened) axis lengths of the global
input box for `full`, `1/√(N₀·N₁·N₂)` for `symmetric`, and the same base
factor `1/(N₀·N₁·N₂)` — not `1` — for `none`. -/
theorem get_scale_factor_values (rank : Nat) (world : box3d)
    (inboxes outboxes : List box3d) (r : Int) (internals : plan_internals)
    (p : fft3d_r2c)
    (h : fft3d_r2c_construct rank world inboxes outboxes r internals = Except.ok p) :
    get_scale_factor p scale.full
        = 1 / ((world.extent 0 : ℝ) * (world.extent 1 : ℝ) * (world.extent 2 : ℝ)) ∧
    get_scale_factor p scale.symmetric
        = 1 / Real.sqrt ((world.extent 0 : ℝ) * (world.extent 1 : ℝ) * (world.extent 2 : ℝ)) ∧
    get_scale_factor p scale.none
        = 1 / ((world.extent 0 : ℝ) * (world.extent 1 : ℝ) * (world.extent 2 : ℝ)) := by
  have hs := construct_ok_scale_factor rank world inboxes outboxes r internals p h
  have hcast : ((1 / (world.count : ℚ) : ℚ) : ℝ)
      = 1 / ((world.extent 0 : ℝ) * (world.extent 1 : ℝ) * (world.extent 2 : ℝ)) := by
    push_cast [box3d.count]
    ring
  refine ⟨?_, ?_, ?_⟩
  · have hq : get_scale_factor p scale.full = ((p.scale_factor : ℚ) : ℝ) := by
      simp [get_scale_factor]
    rw [hq, hs, hcast]
  · have hq : get_scale_factor p scale.symmetric = Real.sqrt ((p.scale_factor : ℚ) : ℝ) := by
      simp [get_scale_factor]
    rw [hq, hs, hcast, one_div, Real.sqrt_inv, one_div]
  · have hq : get_scale_factor p scale.none = ((p.scale_factor : ℚ) : ℝ) := by
      simp [get_scale_factor]
    rw [hq, hs, hcast]

/-- Claim C1, witness: the amended statement evaluated on the single-rank
2×2×2 plan. -/
theorem get_scale_factor_values_witness :
    get_scale_factor examplePlan scale.full
        = 1 / ((exampleWorld.extent 0 : ℝ) * (exampleWorld.extent 1 : ℝ) * (exampleWorld.extent 2 : ℝ)) ∧
    get_scale_factor examplePlan scale.symmetric
        = 1 / Real.sqrt ((exampleWorld.extent 0 : ℝ) * (exampleWorld.extent 1 : ℝ) * (exampleWorld.extent 2 : ℝ)) ∧
    get_scale_factor examplePlan scale.none
        = 1 / ((exampleWorld.extent 0 : ℝ) * (exampleWorld.extent 1 : ℝ) * (exampleWorld.extent 2 : ℝ)) :=
  get_scale_factor_values 0 exampleWorld [exampleWorld] [exampleWorld] 0 exampleInternals
    examplePlan rfl

/-! ## Claim C2 -/

/-- Claim C2: the global output box is the input box shortened to
`⌊N_r/2⌋ + 1` indices along the r2c axis (C++ integer division) and unchanged
along the other two axes; a successful construction guarantees that the
per-rank outboxes cover exactly this shortened box, and when they do not the
construction is rejected. -/
theorem r2c_output_geometry (rank : Nat) (world : box3d) (inboxes outboxes : List box3d)
    (r : Int) (internals : plan_internals) (p : fft3d_r2c) :
    (∀ i : Fin 3, (world.r2c r).extent i
        = if (i.val : Int) = r then world.extent i / 2 + 1 else world.extent i) ∧
    (fft3d_r2c_construct rank world inboxes outboxes r internals = Except.ok p →
        unionEqB outboxes (world.r2c r) = true) ∧
    (unionEqB outboxes (world.r2c r) = false →
        ∀ q : fft3d_r2c,
          fft3d_r2c_construct rank world inboxes outboxes r internals ≠ Except.ok q) := by
  refine ⟨?_, ?_, ?_⟩
  · intro i
    fin_cases i <;>
      by_cases h0 : r = 0 <;> by_cases h1 : r = 1 <;> by_cases h2 : r = 2 <;>
        simp_all [box3d.r2c, box3d.extent, box3d.lo, box3d.hi, rangeLen, eq_comm] <;> omega
  · intro h
    unfold fft3d_r2c_construct plan_operations at h
    split at h
    · split at h
      · rename_i hcheck
        simp only [partitionOkB, Bool.and_eq_true] at hcheck
        exact hcheck.2.1
      · simp [Except.map] at h
    · simp [Except.map] at h
  · intro hu q hq
    unfold fft3d_r2c_construct plan_operations at hq
    split at hq
    · split at hq
      · rename_i hcheck
        simp only [partitionOkB, Bool.and_eq_true] at hcheck
        simp [hcheck.2.1] at hu
      · simp [Except.map] at hq
    · simp [Except.map] at hq

/-- Claim C2, witness: the 2×2×2 single-rank plan — the outbox covers the
shortened box exactly and construction succeeds, while removing every outbox
makes construction fail. -/
theorem r2c_output_geometry_witness :
    unionEqB [exampleWorld] (exampleWorld.r2c 0) = true ∧
    (∀ q : fft3d_r2c,
      fft3d_r2c_construct 0 exampleWorld [exampleWorld] [] 0 exampleInternals
        ≠ Except.ok q) :=
  ⟨(r2c_output_geometry 0 exampleWorld [exampleWorld] [exampleWorld] 0 exampleInternals
      examplePlan).2.1 rfl,
   (r2c_output_geometry 0 exampleWorld [exampleWorld] [] 0 exampleInternals
      examplePlan).2.2 rfl⟩

/-! ## Claim C3 -/

/-- Claim C3: an r2c axis outside `{0,1,2}` makes construction fail with
`InvalidR2CAxis` — the planner error propagates before any plan state is
produced — while for an axis in `{0,1,2}` this error is never raised. -/
theorem r2c_axis_validation (rank : Nat) (world : box3d) (inboxes outboxes : List box3d)
    (r : Int) (internals : plan_internals) :
    (¬(r = 0 ∨ r = 1 ∨ r = 2) →
      fft3d_r2c_construct rank world inboxes outboxes r internals
        = Except.error heffte_error.InvalidR2CAxis) ∧
    ((r = 0 ∨ r = 1 ∨ r = 2) →
      fft3d_r2c_construct rank world inboxes outboxes r internals
        ≠ Except.error heffte_error.InvalidR2CAxis) := by
  constructor
  · intro hr
    unfold fft3d_r2c_construct plan_operations
    rw [if_neg hr]
    rfl
  · intro hr
    unfold fft3d_r2c_construct plan_operations
    rw [if_pos hr]
    split
    · simp [Except.map]
    · simp [Except.map]

/-- Claim C3, witness: axis 5 is rejected with `InvalidR2CAxis`; axis 0 on the
same boxes never produces that error. -/
theorem r2c_axis_validation_witness :
    fft3d_r2c_construct 0 exampleWorld [exampleWorld] [exampleWorld] 5 exampleInternals
        = Except.error heffte_error.InvalidR2CAxis ∧
    fft3d_r2c_construct 0 exampleWorld [exampleWorld] [exampleWorld] 0 exampleInternals
        ≠ Except.error heffte_error.InvalidR2CAxis :=
  ⟨(r2c_axis_validation 0 exampleWorld [exampleWorld] [exampleWorld] 5 exampleInternals).1
      (by decide),
   (r2c_axis_validation 0 exampleWorld [exampleWorld] [exampleWorld] 0 exampleInternals).2
      (by decide)⟩

/-! ## Claim C4 -/

/-- Claim C4, counterexample: the container-based `backward` does not reject
an undersized input — called on the 2×2×2 plan with an empty input container
(fewer than `size_outbox() = 8` entries) it returns a result instead of an
error, because the header's container `backward` performs no size check. -/
theorem backward_no_size_check :
    ([] : List Int).length < size_outbox examplePlan ∧
    backward_container examplePlan ([] : List Int) ([] : List Int)
      = Except.ok (List.replicate 8 (0 : Int)) :=
  ⟨by decide, rfl⟩

/-- Claim C4, amended: only the container-based `forward` checks sizes — it
rejects (with `std::invalid_argument`) exactly the inputs holding fewer than
`size_inbox()` entries — while the container-based `backward` accepts every
input regardless of size; no other size check exists in the header. -/
theorem container_size_checks {α β : Type} [Inhabited α] [Inhabited β]
    (p : fft3d_r2c) (vals : List β) (rvals : List α) (input : List α) (binput : List β) :
    (forward_container p vals input = Except.error heffte_error.InvalidArgument ↔
        input.length < size_inbox p) ∧
    (backward_container p rvals binput).isOk = true := by
  constructor
  · unfold forward_container
    split <;> simp_all
  · rfl

/-- Claim C4, witness: on the 2×2×2 plan the forward container call rejects an
empty input, and the backward container call accepts one. -/
theorem container_size_checks_witness :
    forward_container examplePlan ([] : List Int) ([] : List Int)
        = Except.error heffte_error.InvalidArgument ∧
    (backward_container examplePlan ([3] : List Int) ([] : List Int)).isOk = true :=
  ⟨(container_size_checks examplePlan ([] : List Int) ([3] : List Int)
      ([] : List Int) ([] : List Int)).1.mpr (by decide),
   (container_size_checks examplePlan ([] : List Int) ([3] : List Int)
      ([] : List Int) ([] : List Int)).2⟩

/-! ## Claim C5 -/

/-- Claim C5: the call-site type check of `forward` accepts exactly real
`float` input with single-precision complex output and real `double` input
with double-precision complex output; `backward` accepts exactly the converse
pairings; every other combination — in particular complex input to the r2c
`forward` — is rejected. -/
theorem compatible_types (i o : scalar_kind) :
    (forward_types_ok i o = true ↔
      (i = scalar_kind.float_t ∧ o = scalar_kind.ccomplex_t) ∨
      (i = scalar_kind.double_t ∧ o = scalar_kind.zcomplex_t)) ∧
    (backward_types_ok i o = true ↔
      (i = scalar_kind.ccomplex_t ∧ o = scalar_kind.float_t) ∨
      (i = scalar_kind.zcomplex_t ∧ o = scalar_kind.double_t)) ∧
    ((is_ccomplex i = true ∨ is_zcomplex i = true) → forward_types_ok i o = false) := by
  cases i <;> cases o <;> exact ⟨by decide, by decide, by decide⟩

/-- Claim C5, witness: `float → ccomplex` is accepted by `forward`,
`zcomplex → double` by `backward`, and complex input to `forward` is
rejected. -/
theorem compatible_types_witness :
    forward_types_ok scalar_kind.float_t scalar_kind.ccomplex_t = true ∧
    backward_types_ok scalar_kind.zcomplex_t scalar_kind.double_t = true ∧
    forward_types_ok scalar_kind.ccomplex_t scalar_kind.ccomplex_t = false :=
  ⟨(compatible_types scalar_kind.float_t scalar_kind.ccomplex_t).1.mpr (Or.inl ⟨rfl, rfl⟩),
   (compatible_types scalar_kind.zcomplex_t scalar_kind.double_t).2.1.mpr (Or.inr ⟨rfl, rfl⟩),
   (compatible_types scalar_kind.ccomplex_t scalar_kind.ccomplex_t).2.2 (Or.inl rfl)⟩

/-! ## Claim C6 -/

/-- The stage maximum of the communication workspace distributes over list
concatenation: taking it over the forward and backward shaper lists jointly is
the same as the larger of the two per-direction maxima. -/
theorem get_workspace_size_append (A B : List (Option reshape3d_base)) :
    get_workspace_size (A ++ B) = Nat.max (get_workspace_size A) (get_workspace_size B) := by
  induction A with
  | nil => simp [get_workspace_size]
  | cons a A ih =>
      cases a with
      | none =>
          show get_workspace_size (A ++ B) = Nat.max (get_workspace_size A) (get_workspace_size B)
          exact ih
      | some sh =>
          show Nat.max (sh.input_volume + sh.output_volume) (get_workspace_size (A ++ B))
              = Nat.max (Nat.max (sh.input_volume + sh.output_volume) (get_workspace_size A))
                  (get_workspace_size B)
          rw [ih]
          exact (Nat.max_assoc (sh.input_volume + sh.output_volume)
            (get_workspace_size A) (get_workspace_size B)).symm

/-- Claim C6: `size_workspace()` equals the maximum over all reshape stages —
forward and backward together — of send volume plus receive volume, plus the
largest scratch size over the 1D executors; `size_comm_buffers()` equals that
communication maximum alone. -/
theorem workspace_size_formula (p : fft3d_r2c) :
    size_workspace p
        = get_workspace_size (p.forward_shaper ++ p.backward_shaper) + get_max_size p ∧
    size_comm_buffers p = get_workspace_size (p.forward_shaper ++ p.backward_shaper) := by
  constructor
  · unfold size_workspace
    rw [get_workspace_size_append]
  · unfold size_comm_buffers
    rw [get_workspace_size_append]

/-! ## Claim C8 -/

/-- Running any sequence of transform calls leaves the plan component of the
state untouched: `forward` and `backward` are const methods over const
members. -/
theorem run_calls_plan {γ : Type} (s : call_state γ) (cs : List (fft_call γ)) :
    (run_calls s cs).plan = s.plan := by
  induction cs generalizing s with
  | nil => rfl
  | cons c cs ih =>
      show (run_calls (apply_call s c) cs).plan = s.plan
      rw [ih]
      cases c <;> rfl

/-- Claim C8: after any sequence of forward and backward calls (successful or
failed — the written buffer contents are arbitrary), every observable of the
plan — `inbox()`, `outbox()`, `size_inbox()`, `size_outbox()`,
`size_workspace()` and `get_scale_factor` for every scaling — is unchanged
from its value at construction. -/
theorem plan_immutable {γ : Type} (s : call_state γ) (cs : List (fft_call γ)) :
    (run_calls s cs).plan.pinbox = s.plan.pinbox ∧
    (run_calls s cs).plan.poutbox = s.plan.poutbox ∧
    size_inbox (run_calls s cs).plan = size_inbox s.plan ∧
    size_outbox (run_calls s cs).plan = size_outbox s.plan ∧
    size_workspace (run_calls s cs).plan = size_workspace s.plan ∧
    ∀ sc : scale, get_scale_factor (run_calls s cs).plan sc = get_scale_factor s.plan sc := by
  rw [run_calls_plan]
  exact ⟨rfl, rfl, rfl, rfl, rfl, fun _ => rfl⟩

/-! ## Claim C9 -/

/-- In-place overwriting keeps the buffer's length. -/
theorem overwrite_length {γ : Type} (dest vals : List γ) :
    (overwrite dest vals).length = dest.length := by
  simp only [overwrite, List.length_take, List.length_append, List.length_drop]
  omega

/-- Claim C9: whenever the container-based `forward` accepts its input, it
returns a container of exactly `size_outbox()` entries, and the
container-based `backward` always returns a container of exactly
`size_inbox()` entries, however large the input container is. -/
theorem container_result_sizes {α β : Type} [Inhabited α] [Inhabited β]
    (p : fft3d_r2c) (vals : List β) (rvals : List α) (input : List α) (binput : List β)
    (h : size_inbox p ≤ input.length) :
    (∃ out : List β, forward_container p vals input = Except.ok out ∧
        out.length = size_outbox p) ∧
    (∃ res : List α, backward_container p rvals binput = Except.ok res ∧
        res.length = size_inbox p) := by
  constructor
  · refine ⟨overwrite (List.replicate (size_outbox p) default) vals, ?_, ?_⟩
    · unfold forward_container
      rw [if_neg (by omega)]
    · rw [overwrite_length]
      simp
  · refine ⟨overwrite (List.replicate (size_inbox p) default) rvals, rfl, ?_⟩
    rw [overwrite_length]
    simp

/-- Claim C9, witness: on the 2×2×2 plan (`size_inbox = size_outbox = 8`) a
forward call on a 10-entry input returns exactly 8 entries, and a backward
call returns exactly 8 entries. -/
theorem container_result_sizes_witness :
    (∃ out : List Int,
        forward_container examplePlan ([1, 2] : List Int) (List.replicate 10 (0 : Int))
          = Except.ok out ∧ out.length = size_outbox examplePlan) ∧
    (∃ res : List Int,
        backward_container examplePlan ([] : List Int) ([] : List Int)
          = Except.ok res ∧ res.length = size_inbox examplePlan) :=
  container_result_sizes examplePlan [1, 2] [] (List.replicate 10 0) [] (by decide)

/-! ## Claim C10 -/

/-- Claim C10: the two-argument `standard_transform` entry points (no caller
workspace) compute exactly what the three-argument variants compute on a
freshly allocated, value-initialized workspace of `size_workspace()` complex
entries, for both directions; omitting the workspace changes only who
allocates. -/
theorem workspace_allocation_equiv {α γ : Type} [Inhabited γ]
    (fpipe : fft3d_r2c → List α → List γ → scale → List γ)
    (bpipe : fft3d_r2c → List γ → List γ → scale → List α)
    (p : fft3d_r2c) (input : List α) (binput : List γ) (scaling : scale) :
    standard_transform_fwd fpipe p input scaling
      = standard_transform_fwd_w fpipe p input (fresh_workspace (size_workspace p)) scaling ∧
    standard_transform_bwd bpipe p binput scaling
      = standard_transform_bwd_w bpipe p binput (fresh_workspace (size_workspace p)) scaling ∧
    (fresh_workspace (size_workspace p) : List γ).length = size_workspace p :=
  ⟨rfl, rfl, by simp [fresh_workspace]⟩

end heffte
